import Mathlib

/-!
Verification of the extraction-and-normalization engine of
`moltemplate/force_fields/msi_frc_converter/msifrc2lt.py`.

The Python source is embedded shallowly: pure helper functions become Lean
functions on `List Char` / `List String`; Python runtime failures
(IndexError on out-of-range list subscripts, NameError on reads of names
that were never assigned, TypeError on calls with a missing required
argument, uncaught Exception raises) are modelled with `Except PyErr`.
Numeric force-field coefficients, which the source obtains with `float(...)`
and only ever compares for equality, are modelled as rationals.
-/

/-- Runtime failures of the Python source that are relevant to the claims.
`indexError` models a list subscript out of range, `nameUndefined` a read of
a variable that was never assigned, `typeError` a function call missing a
required positional argument, `keyError` a failed dictionary lookup, and
`exceptionRaised` an explicit `raise Exception(...)` in the source. -/
inductive PyErr where
  | indexError
  | nameUndefined
  | typeError
  | keyError
  | exceptionRaised
  deriving DecidableEq, Repr

/-- Python list subscript `l[i]` for a non-negative index: out of range
raises `IndexError`. -/
def pySubscript {α : Type} (l : List α) (i : Nat) : Except PyErr α :=
  match l[i]? with
  | some x => Except.ok x
  | none => Except.error PyErr.indexError

/-! ## Quoted-token lexer (source lines 72-149)

`NSplitQuotedString` is a character-by-character state machine over the
input line.  The state consists of the accumulated `tokens`, the token
being built, and the `readingToken` / `escapedState` / `quoteState`
variables of the source.  Hitting an unescaped, unquoted comment character
returns early with the current token flushed. -/

structure LexSt where
  tokens : List String
  token : String
  readingToken : Bool
  escapedState : Bool
  quoteState : Option Char
  deriving DecidableEq, Repr

/-- Translate an escaped letter the way the source does inside its final
`else` branch (`n`, `t`, `r`, `f` become control characters). -/
def escTranslate (c : Char) : Char :=
  if c = 'n' then '\n'
  else if c = 't' then '\t'
  else if c = 'r' then '\r'
  else if c = 'f' then '\x0c'
  else c

/-- The `for c in string` loop of `NSplitQuotedString` (source lines 91-133).
Returns `Sum.inl` on the early `return tokens` taken at a comment character,
and `Sum.inr` with the final state when the loop runs to completion. -/
def nsplitLoop (nmax : Nat) (quotes delims escape comment : List Char) :
    List Char → LexSt → Sum (List String) LexSt
  | [], st => Sum.inr st
  | c :: cs, st =>
    if comment.contains c && !st.escapedState && st.quoteState == none then
      Sum.inl (st.tokens ++ [st.token])
    else if delims.contains c && !st.escapedState && st.quoteState == none then
      if st.readingToken then
        if nmax > 0 && st.tokens.length < nmax - 1 then
          nsplitLoop nmax quotes delims escape comment cs
            { st with tokens := st.tokens ++ [st.token], token := "",
                      readingToken := false }
        else
          nsplitLoop nmax quotes delims escape comment cs
            { st with token := st.token.push c }
      else
        nsplitLoop nmax quotes delims escape comment cs st
    else if escape.contains c then
      if st.escapedState then
        nsplitLoop nmax quotes delims escape comment cs
          { st with token := st.token.push c, readingToken := true,
                    escapedState := false }
      else
        nsplitLoop nmax quotes delims escape comment cs
          { st with escapedState := true }
    else if quotes.contains c && !st.escapedState then
      let q :=
        match st.quoteState with
        | some q0 => if c = q0 then none else some q0
        | none => some c
      nsplitLoop nmax quotes delims escape comment cs
        { st with quoteState := q, token := st.token.push c,
                  readingToken := true }
    else
      let c2 := if st.escapedState then escTranslate c else c
      nsplitLoop nmax quotes delims escape comment cs
        { st with token := st.token.push c2, readingToken := true,
                  escapedState := false }

/-- `NSplitQuotedString` (source lines 72-137): run the loop, then, when
the loop completed without a comment return, append the pending token
whenever the input string is non-empty (`if len(string) > 0` in the
source). -/
def NSplitQuotedString (s : String) (nmax : Nat)
    (quotes delims escape comment : List Char) : List String :=
  match nsplitLoop nmax quotes delims escape comment s.data
      ⟨[], "", true, false, none⟩ with
  | Sum.inl ts => ts
  | Sum.inr st => if s.data.length > 0 then st.tokens ++ [st.token] else st.tokens

/-- Default argument values of the source: the quote set holds the single
and double quote characters, the delimiter set holds space, tab, carriage
return, form feed and newline, the escape set holds the backslash, and the
comment set holds the number sign. -/
def lexQuotes : List Char := ['\'', '\"']

def lexDelims : List Char := [' ', '\t', '\r', '\x0c', '\n']

def lexEscape : List Char := ['\\']

def lexComment : List Char := ['#']

/-- `SplitQuotedString` (source lines 142-149): `NSplitQuotedString` with
`nmax = 0` and the default quote, delimiter, escape and comment sets. -/
def SplitQuotedString (s : String) : List String :=
  NSplitQuotedString s 0 lexQuotes lexDelims lexEscape lexComment

/-! ## Atom-name encoding and list canonicalization (source lines 161-199) -/

/-- Replace every occurrence of the character `*` by the two characters
`\*`, exactly what `s.replace(chr(42), chr(92) + chr(42))` does for the
single-character pattern used at source line 192. -/
def replaceStar : List Char → List Char
  | [] => []
  | c :: cs => if c = '*' then '\\' :: '*' :: replaceStar cs
               else c :: replaceStar cs

/-- `EncodeAName` (source lines 176-199): a name beginning with `*` is a
wildcard and becomes `X`; otherwise every interior `*` is escaped. -/
def EncodeAName (s : String) : String :=
  match s.data with
  | '*' :: _ => "X"
  | d => String.mk (replaceStar d)

/-- Lexicographic order on character lists by code point, matching the
comparison Python performs for `str < str` (a strict prefix is smaller). -/
def pyStrLT : List Char → List Char → Bool
  | _, [] => false
  | [], _ :: _ => true
  | a :: as, b :: bs =>
    if a < b then true
    else if b < a then false
    else pyStrLT as bs

/-- Python string comparison `s < t`. -/
def pyLT (s t : String) : Bool := pyStrLT s.data t.data

/-- `ReverseIfEnds` (source lines 161-168): copy the list and reverse the
copy when `l[0] > l[-1]`.  The source is only ever applied to non-empty
lists; on `[]` the source would raise IndexError while this embedding
returns `[]` (no claim concerns the empty list). -/
def ReverseIfEnds (l : List String) : List String :=
  if pyLT (l.getLast?.getD "") (l.head?.getD "") then l.reverse else l

/-- The canonical key order a bond, angle or dihedral atom-name list gets in
the section handlers: `ReverseIfEnds(map(EncodeAName, tokens[...]))`
(source lines 987, 1016, 1044, 1087, 1101, 1124, ...). -/
def CanonicalAtomList (l : List String) : List String :=
  ReverseIfEnds (l.map EncodeAName)

/-! ## Priority resolution (source lines 201-240) -/

/-- `DeterminePriority` (source lines 201-226), faithfully: the loop body
`if anames[:1] == a` reads the name `a`, which is defined nowhere (not in
the function, not at module level), so the first iteration raises
NameError.  With an empty `anames` the loop body never runs and the
function returns the default priority 0.  The `is_auto` argument is
accepted and ignored, as in the source. -/
def DeterminePriority (anames : List String) (is_auto : Bool) :
    Except PyErr Int :=
  if anames.isEmpty then Except.ok 0 else Except.error PyErr.nameUndefined

/-- The call sites at source lines 990, 1004, 1019, 1033, 1047, 1066, 1090,
1104, 1127, ... invoke `DeterminePriority(tokens[...])` with one argument,
but the function requires two positional arguments, so every such call
raises TypeError before the body runs. -/
def DeterminePriorityCall1 (anames : List String) : Except PyErr Int :=
  Except.error PyErr.typeError

/-- `EncodeInteractionName` (source lines 231-235): for auto interactions
the priority is computed first (which can fail, see `DeterminePriority`),
then the name is `auto` ++ priority ++ the comma-joined names; otherwise it
is just the comma-joined names. -/
def EncodeInteractionName (anames : List String) (is_auto : Bool) :
    Except PyErr String :=
  if is_auto then
    (DeterminePriority anames is_auto).map
      (fun p => "auto" ++ toString p ++ String.intercalate "," anames)
  else
    Except.ok (String.intercalate "," anames)

/-! ## Improper-interaction canonical orderings (source lines 243-272) -/

/-- Python ordering on the `(name, index)` pairs that
`Class2ImproperNameSort` zips together: tuples compare lexicographically,
strings by code point and indices as integers. -/
def pyPairSNLT (x y : String × Nat) : Bool :=
  if pyLT x.1 y.1 then true
  else if pyLT y.1 x.1 then false
  else Nat.blt x.2 y.2

/-- Stable ascending insertion for `z.sort()`: an element is placed before
the first strictly greater element, so equal keys keep their order. -/
def insertPairSN (x : String × Nat) : List (String × Nat) → List (String × Nat)
  | [] => [x]
  | y :: ys => if pyPairSNLT x y then x :: y :: ys else y :: insertPairSN x ys

/-- Python `z.sort()`: stable ascending sort of the pair list. -/
def sortPairsSN (l : List (String × Nat)) : List (String × Nat) :=
  l.foldl (fun acc x => insertPairSN x acc) []

/-- `OOPImproperNameSort` (source lines 243-253): encode the four names;
keep the order when position 0 is strictly below position 3, otherwise swap
positions 0 and 3, returning the permutation.  (The identity permutation is
written `[0:4]` in the source, a slip for `[0,1,2,3]`.)  The `assert`
for lists of length other than 4 is modelled as `none`. -/
def OOPImproperNameSort (aorig : List String) :
    Option (List String × List Nat) :=
  match aorig.map EncodeAName with
  | [a0, a1, a2, a3] =>
    if pyLT a0 a3 then some ([a0, a1, a2, a3], [0, 1, 2, 3])
    else some ([a3, a1, a2, a0], [3, 1, 2, 0])
  | _ => none

/-- `Class2ImproperNameSort` (source lines 256-272), faithfully: the hub is
position 1; positions 0, 2, 3 are zipped with their indices and sorted,
giving the three-element list `z`; the source then builds
`l = [z[0][0], atom_names[1], z[2][0], z[3][0]]`, and the subscript `z[3]`
is out of range for the three-element `z`, raising IndexError.  The result
is therefore `none` for every four-name input (and for the `assert` on any
other length). -/
def Class2ImproperNameSort (aorig : List String) :
    Option (List String × List Nat) :=
  match aorig.map EncodeAName with
  | [a0, a1, a2, a3] =>
    let z := sortPairsSN [(a0, 0), (a2, 2), (a3, 3)]
    match z[0]?, z[2]?, z[3]? with
    | some p0, some p2, some p3 =>
      some ([p0.1, a1, p2.1, p3.1], [p0.2, 1, p2.2, p3.2])
    | _, _, _ => none
  | _ => none

/-! ## Class2 improper symmetry detection (source lines 1512-1556)

After gathering the three angle-angle coefficients `M` and the three
equilibrium angles `theta0` (both three-element lists indexed by leaf
number 0..2, filled by the loop at source lines 1519-1536), the source runs
the loop at lines 1538-1556 to decide, for each leaf `i`, whether the two
other leaves may be swapped.  The loop reads `M[i_neigh[i][0]]` and
`M[i_neigh[i][1]]` where `i_neigh` holds atom positions from `{0,2,3}`,
not leaf numbers from `{0,1,2}`. -/

/-- `noti3` (source line 1516). -/
def noti3 : List (Nat × Nat) := [(1, 2), (0, 2), (0, 1)]

/-- The leaf positions of a class2 improper: the hub is position 1. -/
def leafIdx : List Nat := [0, 2, 3]

/-- `i_neigh` (source lines 1517-1518): the two neighbor leaves of the
i-th leaf, as atom positions.  Evaluates to `[(2,3), (0,3), (0,2)]`. -/
def iNeigh : List (Nat × Nat) :=
  noti3.map (fun p => (leafIdx.getD p.1 0, leafIdx.getD p.2 0))

/-- One iteration of the symmetry loop (source lines 1538-1556) for leaf
`i`, accumulating the positions added to `improper2sym`.  The source
condition is
`(M[i_neigh[i][0]] == M[i_neigh[i][1]]) and
 (theta0[i_neigh[i][1]] == theta0[i_neigh[i][1]])`
with Python short-circuit evaluation; the `else` branch raises the
symmetry-contradiction Exception when the two leaf names coincide. -/
def improperSymStep (M theta0 : List ℚ) (anames : List String) (i : Nat)
    (acc : List Nat) : Except PyErr (List Nat) := do
  let nb := iNeigh.getD i (0, 0)
  let mA ← pySubscript M nb.1
  let mB ← pySubscript M nb.2
  let sym ← do
    if mA = mB then
      let tB ← pySubscript theta0 nb.2
      let tB2 ← pySubscript theta0 nb.2
      pure (decide (tB = tB2))
    else
      pure false
  if sym then
    pure (acc ++ [nb.1, nb.2])
  else do
    let nA ← pySubscript anames nb.1
    let nB ← pySubscript anames nb.2
    if nA = nB then Except.error PyErr.exceptionRaised
    else pure acc

/-- The symmetry loop `for i in range(0, 3)` at source lines 1538-1556. -/
def improperSymLoop (M theta0 : List ℚ) (anames : List String) :
    Except PyErr (List Nat) := do
  let a0 ← improperSymStep M theta0 anames 0 []
  let a1 ← improperSymStep M theta0 anames 1 a0
  improperSymStep M theta0 anames 2 a1

/-! ## Priority ordering of the final tables (source lines 989-990, 1671-1673) -/

/-- Python comparison of the priority tuples `(is_auto, n)` stored in
`bond2priority` and friends: booleans compare as 0 and 1, tuples
lexicographically. -/
def pyPriorityLT (x y : Bool × Int) : Bool :=
  if x.1 = y.1 then decide (x.2 < y.2) else (x.1 = false)

/-- Stable descending insertion: an element is placed before the first
element with a strictly smaller key, so equal keys keep their order.
`sorted(items, key=itemgetter(1), reverse=True)` is exactly this stable
highest-first ordering by the second component. -/
def insertHighToLow (x : String × (Bool × Int)) :
    List (String × (Bool × Int)) → List (String × (Bool × Int))
  | [] => [x]
  | y :: ys => if pyPriorityLT y.2 x.2 then x :: y :: ys
               else y :: insertHighToLow x ys

/-- The sort producing `bond_names_priority_high_to_low`
(source lines 1671-1673), applied to the `(name, (is_auto, priority))`
items of the table. -/
def sortPriorityHighToLow (items : List (String × (Bool × Int))) :
    List (String × (Bool × Int)) :=
  items.foldl (fun acc x => insertHighToLow x acc) []

/-! ## Section reader and the cross-term reference scenario
(source lines 861-902, 986-998, 1123-1139)

The state machine below embeds the branches of the per-line `elif` chain
that the claims exercise: the header dispatch (lines 900-902), the
`#quadratic-bond` handler (lines 986-998) and the `#middle_bond-torsion_3`
handler (lines 1123-1139).  The omitted branches all guard on other
section names (`#equivalence`, `#atom_types`, `#nonbond(...)`, ...) and are
false on every input considered here. -/

/-- `allowed_section_names` (source lines 861-889), faithfully: the comma
is missing after the string literal at line 867, so Python concatenates
the two adjacent literals and the set contains the single element
`#nonbond(12-6)#quadratic_bond` instead of `#nonbond(12-6)` and
`#quadratic_bond`. -/
def allowedSectionNames : List String :=
  ["#define", "#atom_types", "#equivalence", "#auto_equivalence",
   "#nonbond(9-6)", "#nonbond(12-6)#quadratic_bond", "#quartic_bond",
   "#morse_bond", "#quadratic_angle", "#quartic_angle", "#bond-bond",
   "#bond-angle", "#torsion_1", "#torsion_3", "#middle_bond-torsion_3",
   "#end_bond-torsion_3", "#angle-torsion_3", "#angle-angle-torsion_1",
   "#bond-bond_1_3", "#out_of_plane", "#wilson_out_of_plane",
   "#angle-angle", "#out_of_plane-out_of_plane", "#torsion-torsion_1",
   "#bond_increments", "#hbond_definition"]

/-- Python equality between a one-character string and another string, as
in the comparison of `tokens[-1][-5]` with the string `_auto`, where the
left side is a single character. -/
def pyCharEqStr (c : Char) (s : String) : Bool := decide (String.mk [c] = s)

/-- The assignment of `section_is_auto` at source line 902: take the last
token, subscript its character at position -5 (IndexError when the token
is shorter than five characters), and compare that single character with
the five-character string `_auto`. -/
def sectionIsAuto (tokens : List String) : Except PyErr Bool :=
  let t := (tokens.getLast?.getD "").data
  if t.length < 5 then Except.error PyErr.indexError
  else Except.ok (pyCharEqStr (t.getD (t.length - 5) ' ') "_auto")

/-- The mutable state the modelled branches touch: the current section,
the auto flag, and `bond2r0`.  `bond2r0 = none` models that the Python
name `bond2r0` is never initialized anywhere in the source; reading it
raises NameError. -/
structure FrcState where
  sectionName : String
  sectionIsAutoFlag : Bool
  bond2r0 : Option (List (String × String))
  deriving DecidableEq, Repr

/-- Initial state at source lines 893-894: `section_name` is the empty
string, `section_is_auto` is False, and `bond2r0` was never assigned. -/
def frcInit : FrcState := ⟨"", false, none⟩

/-- The `#quadratic-bond` handler body (source lines 986-998).  After the
canonical bond name is computed, the priority assignment at lines 989-990
calls `DeterminePriority(tokens[2:4])` with one argument instead of two,
raising TypeError; were it reached, the following write
`bond2r0[bond_name] = r0` would raise NameError because `bond2r0` is never
initialized. -/
def quadraticBondHandler (st : FrcState) (tokens : List String) :
    Except PyErr FrcState := do
  let atom_names := ReverseIfEnds (((tokens.drop 2).take 2).map EncodeAName)
  let _bond_name ← EncodeInteractionName atom_names st.sectionIsAutoFlag
  let _p ← DeterminePriorityCall1 ((tokens.drop 2).take 2)
  Except.error PyErr.nameUndefined

/-- The `#middle_bond-torsion_3` handler body (source lines 1123-1139).
The priority assignment at lines 1126-1127 calls
`DeterminePriority(tokens[2:6])` with one argument instead of two, raising
TypeError before the sub-bond lookup `r0 = bond2r0[bond_name]` at line
1136 is reached; that lookup itself would raise NameError (`bond2r0` never
initialized) or, with an initialized empty table, KeyError. -/
def mbtHandler (st : FrcState) (tokens : List String) :
    Except PyErr FrcState := do
  let atom_names := ReverseIfEnds (((tokens.drop 2).take 4).map EncodeAName)
  let _dihedral_name ← EncodeInteractionName atom_names st.sectionIsAutoFlag
  let _p ← DeterminePriorityCall1 ((tokens.drop 2).take 4)
  let bond_name ← EncodeInteractionName ((atom_names.drop 1).take 2)
      st.sectionIsAutoFlag
  match st.bond2r0 with
  | none => Except.error PyErr.nameUndefined
  | some tbl =>
    match tbl.lookup bond_name with
    | none => Except.error PyErr.keyError
    | some _ => pure st

/-- One tokenized line through the modelled branches of the `elif` chain
(source lines 900-1139): header dispatch first, then the two handlers,
then the fall-through that ignores the line. -/
def processTokens (st : FrcState) (tokens : List String) :
    Except PyErr FrcState :=
  if tokens.length > 0 && allowedSectionNames.contains (tokens.headD "") then do
    let b ← sectionIsAuto tokens
    pure { st with sectionName := tokens.headD "", sectionIsAutoFlag := b }
  else if tokens.length > 6 && st.sectionName == "#quadratic-bond" then
    quadraticBondHandler st tokens
  else if tokens.length > 6 && st.sectionName == "#middle_bond-torsion_3" then
    mbtHandler st tokens
  else
    pure st

/-- Run the reader over a list of tokenized lines from the initial state;
the `try`/`except` wrapper of `main` turns any raised error into a fatal
abort. -/
def runFrc (tokenLines : List (List String)) : Except PyErr FrcState :=
  tokenLines.foldlM processTokens frcInit

/-! ## Order lemmas for the Python string comparison -/

theorem pyStrLT_asymm : ∀ (a b : List Char),
    pyStrLT a b = true → pyStrLT b a = false := by
  intro a
  induction a with
  | nil =>
    intro b h
    cases b with
    | nil => simp [pyStrLT] at h
    | cons c cs => simp [pyStrLT]
  | cons x xs ih =>
    intro b h
    cases b with
    | nil => simp [pyStrLT] at h
    | cons y ys =>
      simp only [pyStrLT] at h ⊢
      by_cases hxy : x < y
      · have hyx : ¬ y < x := lt_asymm hxy
        simp [hxy, hyx]
      · by_cases hyx : y < x
        · simp [hxy, hyx] at h
        · simp [hxy, hyx] at h ⊢
          exact ih ys h

theorem pyStrLT_total_eq : ∀ (a b : List Char),
    pyStrLT a b = false → pyStrLT b a = false → a = b := by
  intro a
  induction a with
  | nil =>
    intro b h1 h2
    cases b with
    | nil => rfl
    | cons c cs => simp [pyStrLT] at h1
  | cons x xs ih =>
    intro b h1 h2
    cases b with
    | nil => simp [pyStrLT] at h2
    | cons y ys =>
      simp only [pyStrLT] at h1 h2
      by_cases hxy : x < y
      · simp [hxy] at h1
      · by_cases hyx : y < x
        · simp [hxy, hyx] at h2
        · simp [hxy, hyx] at h1 h2
          have hxy2 : x = y := by
            rcases lt_trichotomy x y with h | h | h
            · exact absurd h hxy
            · exact h
            · exact absurd h hyx
          rw [hxy2, ih ys h1 h2]

theorem pyLT_asymm {s t : String} (h : pyLT s t = true) : pyLT t s = false :=
  pyStrLT_asymm _ _ h

theorem pyLT_eq_of_not {s t : String} (h1 : pyLT s t = false)
    (h2 : pyLT t s = false) : s = t := by
  have hd : s.data = t.data := pyStrLT_total_eq _ _ h1 h2
  cases s
  cases t
  exact congrArg String.mk hd

/-- Canonicalization of a list agrees with canonicalization of its reversal
whenever the first and last encoded names differ. -/
theorem reverseIfEnds_reverse (m : List String)
    (h : m.getLast?.getD "" ≠ m.head?.getD "") :
    ReverseIfEnds m = ReverseIfEnds m.reverse := by
  unfold ReverseIfEnds
  rw [List.head?_reverse, List.getLast?_reverse, List.reverse_reverse]
  by_cases hba : pyLT (m.getLast?.getD "") (m.head?.getD "") = true
  · have hab : pyLT (m.head?.getD "") (m.getLast?.getD "") = false :=
      pyLT_asymm hba
    simp [hba, hab]
  · have hba2 : pyLT (m.getLast?.getD "") (m.head?.getD "") = false := by
      simpa using hba
    by_cases hab : pyLT (m.head?.getD "") (m.getLast?.getD "") = true
    · simp [hba2, hab]
    · have hab2 : pyLT (m.head?.getD "") (m.getLast?.getD "") = false := by
        simpa using hab
      exact absurd (pyLT_eq_of_not hba2 hab2) h

/-- A one-character string never equals the five-character string `_auto`. -/
theorem pyCharEqStr_auto (c : Char) : pyCharEqStr c "_auto" = false := by
  unfold pyCharEqStr
  apply decide_eq_false
  intro h
  have hd := congrArg String.data h
  rw [show ("_auto" : String).data = ['_', 'a', 'u', 't', 'o'] from rfl] at hd
  simp at hd

/-! ## Claims -/

/-- C1: the spec says the symmetry loop records a leaf swap exactly when the
two cross coefficients and the two referenced equilibrium angles agree.  In
the source (lines 1538-1544) the loop instead subscripts the three-element
lists `M` and `theta0` with the atom positions 2 and 3 and compares
`theta0` with itself; on the very first iteration the subscript `M[3]` is
out of range, so for the symmetric configuration of the claim (equal
coefficients, equal angles) the run raises IndexError instead of recording
the swap. -/
theorem c1_improper_sym_loop_index_error :
    improperSymLoop [1, 1, 1] [120, 120, 120] ["c1", "n", "c2", "c3"]
      = Except.error PyErr.indexError := by rfl

/-- C2: the spec says two leaves with identical encoded names and differing
angle-angle coefficients raise the symmetry-contradiction error.  In the
source the contradiction check at lines 1548-1556 is unreachable: the loop
condition at line 1539 raises IndexError (subscript `M[3]` on the
three-element list `M`) on the first iteration, so an improper with all
leaf names identical and differing coefficients dies with IndexError, not
with the descriptive symmetry-contradiction Exception. -/
theorem c2_contradiction_check_unreachable :
    improperSymLoop [1, 2, 1] [120, 120, 120] ["c1", "n", "c1", "c1"]
      = Except.error PyErr.indexError := by rfl

/-- C3 counterexample: canonicalization is not reversal-invariant on a list
whose first and last encoded names are equal while the interior elements
differ, exactly the case the claim includes. -/
theorem c3_reversal_invariance_counterexample :
    CanonicalAtomList ((["a", "b", "c", "a"] : List String).reverse) ≠
      CanonicalAtomList ["a", "b", "c", "a"] ∧
    (["a", "b", "c", "a"] : List String).length = 4 := by
  decide

/-- C3 amended: for every atom-name list whose first and last encoded names
differ, canonicalization is reversal-invariant; when the first and last
encoded names coincide, `ReverseIfEnds` leaves both the list and its
reversal unchanged, so the canonical forms differ whenever the encoded
list is not a palindrome. -/
theorem c3_reversal_invariance_amended (l : List String)
    (hne : (l.map EncodeAName).getLast?.getD "" ≠
      (l.map EncodeAName).head?.getD "") :
    CanonicalAtomList l = CanonicalAtomList l.reverse := by
  unfold CanonicalAtomList
  rw [List.map_reverse]
  exact reverseIfEnds_reverse _ hne

/-- C3 amended, witnessed at the concrete bond list `["b", "a"]`. -/
theorem c3_reversal_invariance_amended_witness :
    ((["b", "a"] : List String).map EncodeAName).getLast?.getD "" ≠
      ((["b", "a"] : List String).map EncodeAName).head?.getD "" ∧
    CanonicalAtomList ["b", "a"] =
      CanonicalAtomList ((["b", "a"] : List String).reverse) :=
  ⟨by decide, c3_reversal_invariance_amended ["b", "a"] (by decide)⟩

/-- C4: the spec says the Wilson/class2 improper sort succeeds on every
4-name list and is idempotent.  In the source (line 270) the result list is
built as `[z[0][0], atom_names[1], z[2][0], z[3][0]]` where `z` is the
three-element sorted zip of the leaves, so the subscript `z[3]` raises
IndexError on every input and the function never returns. -/
theorem c4_class2_improper_sort_index_error :
    Class2ImproperNameSort ["c1", "n", "c2", "c3"] = none := by rfl

/-- C5: the spec says auto-generalized records sort after every explicit
record.  The source sorts the `(is_auto, priority)` tuples with
`reverse=True` (lines 1671-1673), and since `False < True` in Python the
descending order puts every auto record first: here the auto record with
numeric priority 0 precedes the explicit record with numeric priority 5. -/
theorem c5_auto_sorts_first :
    sortPriorityHighToLow [("cC,cD", (false, 5)), ("cA,cB", (true, 0))]
      = [("cA,cB", (true, 0)), ("cC,cD", (false, 5))] := by rfl

/-- C6: the spec says `["c4*2","h1*2"]` resolves to priority 2,
`["c4*2","h1*3"]` fails with the inconsistency error, and pattern-free
names resolve to 0.  The source loop (line 218) compares against the
undefined name `a`, so every non-empty name list raises NameError
instead. -/
theorem c6_determine_priority_name_error :
    DeterminePriority ["c4*2", "h1*2"] false = Except.error PyErr.nameUndefined ∧
    DeterminePriority ["c4*2", "h1*3"] false = Except.error PyErr.nameUndefined ∧
    DeterminePriority ["c4", "h1"] false = Except.error PyErr.nameUndefined :=
  ⟨rfl, rfl, rfl⟩

/-- C7: the spec says a cross-term line referencing a missing sub-bond
fails and the same line succeeds once the bond is added.  In the source the
bond can never be added: the `#quadratic_bond` header is not even in
`allowed_section_names` (the missing comma at line 867 concatenates it onto
`#nonbond(12-6)`), the handler guards on the hyphenated name
`#quadratic-bond` (line 986) that the reader never sets, and `bond2r0` is
never initialized; moreover the `#middle_bond-torsion_3` data line dies
with TypeError in the one-argument `DeterminePriority` call (line 1127)
before the bond lookup.  Processing a file that defines the bond first and
then the cross-term still leaves the bond table unassigned and aborts. -/
theorem c7_cross_term_run_fails :
    runFrc [["#quadratic_bond"],
            ["1.0", "1", "c1", "c2", "1.54", "100.0", "1.54"],
            ["#middle_bond-torsion_3"],
            ["1.0", "1", "c1", "c2", "c2", "c1", "5.0"]]
      = Except.error PyErr.typeError ∧
    runFrc [["#quadratic_bond"],
            ["1.0", "1", "c1", "c2", "1.54", "100.0", "1.54"]]
      = Except.ok frcInit :=
  ⟨rfl, rfl⟩

/-- C8: the spec says data lines after a header ending in `_auto` are
marked auto-generalized.  The source assignment (line 902) compares the
single character `tokens[-1][-5]` with the five-character string `_auto`,
which is never true, so after every header line the flag is False (or the
assignment raises IndexError when the last token is shorter than five
characters). -/
theorem c8_section_is_auto_never_true (tokens : List String) :
    sectionIsAuto tokens = Except.error PyErr.indexError ∨
    sectionIsAuto tokens = Except.ok false := by
  unfold sectionIsAuto
  by_cases hlen : ((tokens.getLast?.getD "").data).length < 5
  · left
    rw [if_pos hlen]
  · right
    rw [if_neg hlen, pyCharEqStr_auto]

/-- C9: the spec says the lexer with no token limit returns the maximal
delimiter-separated runs.  With `nmax = 0` the guard
`(nmax > 0) and (len(tokens) < nmax-1)` at source line 99 is always false,
so delimiters are appended to the current token instead of ending it and
the whole line comes back as a single token: `ab cd` yields `["ab cd"]`
rather than `["ab", "cd"]`. -/
theorem c9_lexer_no_split_at_delimiters :
    SplitQuotedString "ab cd" = ["ab cd"] ∧
    NSplitQuotedString "ab cd" 2 lexQuotes lexDelims lexEscape lexComment
      = ["ab", "cd"] :=
  ⟨rfl, rfl⟩

/-- C10: `ReverseIfEnds` returns either the list or its reversal, and the
first element of the result is less than or equal to the last (stated as
the Python comparison `result[-1] < result[0]` being false).  The source
copies the input with a list comprehension before the in-place reversal,
so the argument itself is never mutated; purity is inherent to this
embedding. -/
theorem c10_reverse_if_ends_spec (l : List String) (h : l ≠ []) :
    (ReverseIfEnds l = l ∨ ReverseIfEnds l = l.reverse) ∧
    pyLT ((ReverseIfEnds l).getLast?.getD "")
      ((ReverseIfEnds l).head?.getD "") = false := by
  unfold ReverseIfEnds
  by_cases hc : pyLT (l.getLast?.getD "") (l.head?.getD "") = true
  · rw [if_pos hc]
    refine ⟨Or.inr rfl, ?_⟩
    rw [List.getLast?_reverse, List.head?_reverse]
    exact pyLT_asymm hc
  · have hc2 : pyLT (l.getLast?.getD "") (l.head?.getD "") = false := by
      simpa using hc
    rw [if_neg hc]
    exact ⟨Or.inl rfl, hc2⟩

/-- C10, witnessed at the concrete list `["b", "a"]`. -/
theorem c10_reverse_if_ends_spec_witness :
    (["b", "a"] : List String) ≠ [] ∧
    ((ReverseIfEnds ["b", "a"] = ["b", "a"] ∨
      ReverseIfEnds ["b", "a"] = (["b", "a"] : List String).reverse) ∧
     pyLT ((ReverseIfEnds ["b", "a"]).getLast?.getD "")
       ((ReverseIfEnds ["b", "a"]).head?.getD "") = false) :=
  ⟨by decide, c10_reverse_if_ends_spec ["b", "a"] (by decide)⟩
